import Mathlib

/-!
Shallow embedding of the USB DFU device-class core of
`src/system/GD32F10x_firmware/GD32F10x_usbd_library/class/device/dfu/Source/dfu_core.c`.

Each C request handler becomes a pure Lean function from the DFU context
(and, where the C reads the global `dfu_config_desc`, a functional-descriptor
record) to a new context together with the list of external side effects it
performs (memory-adapter calls, bus operations, system reset) and the control
transfer it arms.  Machine integers are modelled as `Nat` with explicit
`% 2^32` where 32-bit overflow can matter.
-/

namespace Dfu

/-- Modelled from the spec: the DFU bRequest opcodes from the missing header
`dfu_core.h` (standard USB DFU 1.1 request codes; the dispatcher in
`dfu_req_handler` indexes a table by these values). -/
def DFU_DETACH : Nat := 0
def DFU_DNLOAD : Nat := 1
def DFU_UPLOAD : Nat := 2
def DFU_GETSTATUS : Nat := 3
def DFU_CLRSTATUS : Nat := 4
def DFU_GETSTATE : Nat := 5
def DFU_ABORT : Nat := 6
def DFU_REQ_MAX : Nat := 7

/-- Modelled from the spec: the DFU device state codes from the missing header
`dfu_core.h` (standard USB DFU 1.1 state values; the `bState` field is a raw
byte compared against these constants). -/
def STATE_DFU_IDLE : Nat := 2
def STATE_DFU_DNLOAD_SYNC : Nat := 3
def STATE_DFU_DNBUSY : Nat := 4
def STATE_DFU_DNLOAD_IDLE : Nat := 5
def STATE_DFU_MANIFEST_SYNC : Nat := 6
def STATE_DFU_MANIFEST : Nat := 7
def STATE_DFU_MANIFEST_WAIT_RESET : Nat := 8
def STATE_DFU_UPLOAD_IDLE : Nat := 9
def STATE_DFU_ERROR : Nat := 10

/-- Modelled from the spec: the DFU status codes from the missing header
`dfu_core.h` (standard USB DFU 1.1 status values). -/
def STATUS_OK : Nat := 0x00
def STATUS_ERR_UNKNOWN : Nat := 0x0E
def STATUS_ERR_STALLEDPKT : Nat := 0x0F

/-- The three block-0 special-command opcodes.  Their values are given in
spec section 6: GET_COMMANDS = 0x00, SET_ADDRESS_POINTER = 0x21,
ERASE = 0x41. -/
def GET_COMMANDS : Nat := 0x00
def SET_ADDRESS_POINTER : Nat := 0x21
def ERASE : Nat := 0x41

/-- Modelled from the spec: the negotiated transfer block size constant
`TRANSFER_SIZE` from the missing header (spec: "capacity = transfer-size
constant"); its exact value is immaterial to every claim, only that the same
constant is used by the download and upload address formulas. -/
def TRANSFER_SIZE : Nat := 2048

/-- Modelled from the spec: the poll-timeout configuration constants
`FLASH_ERASE_TIMEOUT` and `FLASH_WRITE_TIMEOUT` from the missing header
(spec section 4.5: "erase operations use a (larger) erase timeout; plain
writes use a (smaller) write timeout"). -/
def FLASH_ERASE_TIMEOUT : Nat := 60
def FLASH_WRITE_TIMEOUT : Nat := 80

/-- Modelled from the spec: `APP_LOADED_ADDR` from the missing header — the
absolute flash base address of the user application that `dfu_init` installs
as the initial `base_addr` (a nonzero flash address above the bootloader). -/
def APP_LOADED_ADDR : Nat := 0x08008000

/-- Modelled from the spec: `DFU_DETACH_MASK` from the missing header — the
"will-detach" bit `dfu_detach` tests in the functional descriptor's
`wDetachTimeOut` field.  Its exact position is immaterial to the claims,
which quantify over both outcomes of the test. -/
def DFU_DETACH_MASK : Nat := 0x10

/-- Modelled from the spec: bmAttributes capability bits of the DFU
functional descriptor (standard USB DFU 1.1 layout; bit 0x04 is
manifestation-tolerant, tested literally as `& 0x04U` in the source). -/
def USB_DFU_CAN_DOWNLOAD : Nat := 0x01
def USB_DFU_CAN_UPLOAD : Nat := 0x02
def USB_DFU_MANIFEST_TOLERANT : Nat := 0x04
def USB_DFU_WILL_DETACH : Nat := 0x08

/-- Manifestation phase (`dfu->manifest_state`), spec section 3:
{IN_PROGRESS, COMPLETE}. -/
inductive ManifestState where
  | inProgress
  | complete
  deriving Repr, DecidableEq

/-- The DFU functional descriptor fields the core reads from the global
`dfu_config_desc.dfu_func`. -/
structure DfuFuncDesc where
  bmAttributes : Nat
  wDetachTimeOut : Nat
  deriving Repr, DecidableEq

/-- The concrete functional descriptor built in this file
(`dfu_config_desc.dfu_func`): `bmAttributes = USB_DFU_CAN_DOWNLOAD |
USB_DFU_CAN_UPLOAD | USB_DFU_WILL_DETACH`, `wDetachTimeOut = 0x00FF`. -/
def dfu_config_desc_func : DfuFuncDesc :=
  { bmAttributes := USB_DFU_CAN_DOWNLOAD ||| USB_DFU_CAN_UPLOAD ||| USB_DFU_WILL_DETACH
    wDetachTimeOut := 0x00FF }

/-- The `usbd_dfu_handler` context: one instance per DFU interface.
`bStatus`, the three poll-timeout bytes, `bState` and `iString` are laid out
as the 6-byte GETSTATUS block; `buf` is the staging buffer of capacity
`TRANSFER_SIZE`. -/
structure DfuCtx where
  bStatus : Nat
  bwPollTimeout0 : Nat
  bwPollTimeout1 : Nat
  bwPollTimeout2 : Nat
  bState : Nat
  iString : Nat
  manifest_state : ManifestState
  base_addr : Nat
  block_num : Nat
  data_len : Nat
  buf : List Nat
  deriving Repr, DecidableEq

/-- External side effects a handler performs, in order. -/
inductive Effect where
  | memInit
  | memDeinit
  | memErase (addr : Nat)
  | memWrite (addr : Nat) (len : Nat) (data : List Nat)
  | memRead (addr : Nat) (len : Nat)
  | usbdDisconnect
  | usbdConnect
  | delayMs (n : Nat)
  | systemReset
  deriving Repr, DecidableEq

/-- Source of an armed IN transfer (`transc_in[0].xfer_buf`). -/
inductive XferSrc where
  /-- `&dfu->buf[0]` — the staging buffer. -/
  | dfuBuf
  /-- `&dfu->bStatus` — the 6-byte status block. -/
  | statusBlock
  /-- `&dfu->bState` — the 1-byte state. -/
  | stateByte
  /-- the readable region returned by `dfu_mem_read` at `addr`. -/
  | readRegion (addr : Nat)
  deriving Repr, DecidableEq

/-- Result of one handler invocation: the new context, the external effects
performed, the IN transfer armed (source and `xfer_len`), and the OUT
data-stage length armed (for DNLOAD). -/
structure HandlerOut where
  ctx : DfuCtx
  effects : List Effect
  transc_in : Option (XferSrc × Nat)
  transc_out : Option Nat
  deriving Repr, DecidableEq

/-- A class request as consumed from the USB control stage. -/
structure UsbReq where
  bRequest : Nat
  wValue : Nat
  wLength : Nat
  deriving Repr, DecidableEq

/-- A handler result with no effects and no transfer armed. -/
def pureOut (c : DfuCtx) : HandlerOut :=
  { ctx := c, effects := [], transc_in := Option.none, transc_out := Option.none }

/-- `dfu_init`: zero the handler, then set `base_addr = APP_LOADED_ADDR`,
`manifest_state = MANIFEST_COMPLETE`, `bState = STATE_DFU_IDLE`,
`bStatus = STATUS_OK`; `dfu_mem_init()` unlocks the flash. -/
def dfu_init : HandlerOut :=
  { ctx :=
      { bStatus := STATUS_OK
        bwPollTimeout0 := 0
        bwPollTimeout1 := 0
        bwPollTimeout2 := 0
        bState := STATE_DFU_IDLE
        iString := 0
        manifest_state := ManifestState.complete
        base_addr := APP_LOADED_ADDR
        block_num := 0
        data_len := 0
        buf := List.replicate TRANSFER_SIZE 0 }
    effects := [Effect.memInit]
    transc_in := Option.none
    transc_out := Option.none }

/-- Little-endian 32-bit value read from `buf + 1` (`*(uint32_t *)(dfu->buf + 1U)`). -/
def le32At1 (buf : List Nat) : Nat :=
  buf.getD 1 0 + 256 * buf.getD 2 0 + 65536 * buf.getD 3 0 + 16777216 * buf.getD 4 0

/-- The address translation both download and upload perform in uint32
arithmetic: `(block_num - 2U) * TRANSFER_SIZE + base_addr`. -/
def blockAddr (block_num base_addr : Nat) : Nat :=
  ((block_num - 2) * TRANSFER_SIZE + base_addr) % 2 ^ 32

/-- `dfu_mode_leave`: set `manifest_state = MANIFEST_COMPLETE`; if the
functional descriptor has the 0x04 (manifestation-tolerant) bit, go to
`MANIFEST_SYNC`; otherwise go to `MANIFEST_WAIT_RESET`, deinit the memory
adapter and issue an unconditional system reset. -/
def dfu_mode_leave (cfg : DfuFuncDesc) (dfu : DfuCtx) : HandlerOut :=
  let dfu := { dfu with manifest_state := ManifestState.complete }
  if cfg.bmAttributes &&& 0x04 ≠ 0 then
    pureOut { dfu with bState := STATE_DFU_MANIFEST_SYNC }
  else
    { ctx := { dfu with bState := STATE_DFU_MANIFEST_WAIT_RESET }
      effects := [Effect.memDeinit, Effect.systemReset]
      transc_in := Option.none
      transc_out := Option.none }

/-- `dfu_getstatus_complete` (reached from `dfu_ctlx_in` when the data stage
of a control transfer completes): in `DNBUSY` decode the staged buffer —
block 0 holds a special command (SET_ADDRESS_POINTER / ERASE at length 5,
GET_COMMANDS at length 1, anything else is a no-op); block numbers above 1
are regular download data written at `blockAddr`; then clear `data_len` and
advance to `DNLOAD_SYNC`.  In `MANIFEST`, leave DFU mode. -/
def dfu_getstatus_complete (cfg : DfuFuncDesc) (dfu : DfuCtx) : HandlerOut :=
  if dfu.bState = STATE_DFU_DNBUSY then
    let step :=
      if dfu.block_num = 0 then
        if dfu.data_len = 1 then
          pureOut dfu
        else if dfu.data_len = 5 then
          if dfu.buf.getD 0 0 = SET_ADDRESS_POINTER then
            pureOut { dfu with base_addr := le32At1 dfu.buf }
          else if dfu.buf.getD 0 0 = ERASE then
            { ctx := { dfu with base_addr := le32At1 dfu.buf }
              effects := [Effect.memErase (le32At1 dfu.buf)]
              transc_in := Option.none
              transc_out := Option.none }
          else
            pureOut dfu
        else
          pureOut dfu
      else if dfu.block_num > 1 then
        let addr := blockAddr dfu.block_num dfu.base_addr
        { ctx := { dfu with block_num := 0 }
          effects := [Effect.memWrite addr dfu.data_len (dfu.buf.take dfu.data_len)]
          transc_in := Option.none
          transc_out := Option.none }
      else
        pureOut dfu
    { step with ctx := { step.ctx with data_len := 0, bState := STATE_DFU_DNLOAD_SYNC } }
  else if dfu.bState = STATE_DFU_MANIFEST then
    dfu_mode_leave cfg dfu
  else
    pureOut dfu

/-- `dfu_detach`: in one of the five "safe" states reset the context fields
to `{status=OK, state=IDLE, iString=0, block_num=0, data_len=0}` (other
states: no mutation); then, unconditionally, either a disconnect/reconnect
cycle (when `wDetachTimeOut & DFU_DETACH_MASK` is set) or a 4 ms delay. -/
def dfu_detach (cfg : DfuFuncDesc) (dfu : DfuCtx) : HandlerOut :=
  let dfu :=
    if dfu.bState = STATE_DFU_IDLE ∨ dfu.bState = STATE_DFU_DNLOAD_SYNC ∨
       dfu.bState = STATE_DFU_DNLOAD_IDLE ∨ dfu.bState = STATE_DFU_MANIFEST_SYNC ∨
       dfu.bState = STATE_DFU_UPLOAD_IDLE then
      { dfu with bStatus := STATUS_OK, bState := STATE_DFU_IDLE, iString := 0,
                 block_num := 0, data_len := 0 }
    else
      dfu
  { ctx := dfu
    effects :=
      if cfg.wDetachTimeOut &&& DFU_DETACH_MASK ≠ 0 then
        [Effect.usbdDisconnect, Effect.usbdConnect]
      else
        [Effect.delayMs 4]
    transc_in := Option.none
    transc_out := Option.none }

/-- `dfu_dnload`: in `IDLE` or `DNLOAD_IDLE`, a nonzero-length request stages
`block_num = wValue`, `data_len = wLength`, enters `DNLOAD_SYNC` and arms the
OUT data stage into the staging buffer; a zero-length request starts
manifestation (`MANIFEST_SYNC`).  Other states: no operation. -/
def dfu_dnload (dfu : DfuCtx) (req : UsbReq) : HandlerOut :=
  if dfu.bState = STATE_DFU_IDLE ∨ dfu.bState = STATE_DFU_DNLOAD_IDLE then
    if req.wLength > 0 then
      { ctx := { dfu with block_num := req.wValue, data_len := req.wLength,
                          bState := STATE_DFU_DNLOAD_SYNC }
        effects := []
        transc_in := Option.none
        transc_out := Option.some req.wLength }
    else
      pureOut { dfu with manifest_state := ManifestState.inProgress,
                         bState := STATE_DFU_MANIFEST_SYNC }
  else
    pureOut dfu

/-- `dfu_upload`: zero-length requests reset the state to `IDLE`.  Otherwise,
in `IDLE` or `UPLOAD_IDLE`: block 0 answers with the 3-byte supported-command
list; block numbers above 1 read `data_len` bytes from `blockAddr` through
the memory adapter and arm the returned region; block 1 assigns the
`STATUS_ERR_STALLEDPKT` status code to the `bState` field, arming nothing.
Other states clear `data_len` and `block_num`. -/
def dfu_upload (dfu : DfuCtx) (req : UsbReq) : HandlerOut :=
  if req.wLength = 0 then
    pureOut { dfu with bState := STATE_DFU_IDLE }
  else if dfu.bState = STATE_DFU_IDLE ∨ dfu.bState = STATE_DFU_UPLOAD_IDLE then
    let dfu := { dfu with block_num := req.wValue, data_len := req.wLength }
    if dfu.block_num = 0 then
      let dfu := { dfu with
        bState := if dfu.data_len > 3 then STATE_DFU_IDLE else STATE_DFU_UPLOAD_IDLE,
        buf := [GET_COMMANDS, SET_ADDRESS_POINTER, ERASE] ++ dfu.buf.drop 3 }
      { ctx := dfu
        effects := []
        transc_in := Option.some (XferSrc.dfuBuf, 3)
        transc_out := Option.none }
    else if dfu.block_num > 1 then
      let dfu := { dfu with bState := STATE_DFU_UPLOAD_IDLE }
      let addr := blockAddr dfu.block_num dfu.base_addr
      { ctx := dfu
        effects := [Effect.memRead addr dfu.data_len]
        transc_in := Option.some (XferSrc.readRegion addr, dfu.data_len)
        transc_out := Option.none }
    else
      pureOut { dfu with bState := STATUS_ERR_STALLEDPKT }
  else
    pureOut { dfu with data_len := 0, block_num := 0 }

/-- `SET_POLLING_TIMEOUT(x)`.  Modelled from the spec: the macro from the
missing header arms the advertised poll timeout with the constant `x`
(section 4.5); both constants fit in the low byte, matching the direct
`bwPollTimeout0` assignments visible in `dfu_getstatus`. -/
def setPollingTimeout (x : Nat) (dfu : DfuCtx) : DfuCtx :=
  { dfu with bwPollTimeout0 := x % 256 }

/-- `dfu_getstatus`: in `DNLOAD_SYNC` with staged data go to `DNBUSY`,
arming the erase or write poll timeout only when a block-0 command is staged
(erase timeout when `buf[0]` is ERASE, else write timeout); with no staged
data go to `DNLOAD_IDLE`.  In `MANIFEST_SYNC`, manifestation-in-progress
goes to `MANIFEST` with a 1-tick timeout; manifestation-complete goes to
`IDLE` with a zero timeout only when the manifestation-tolerant bit is set.
Always arms the 6-byte status block on EP0-IN. -/
def dfu_getstatus (cfg : DfuFuncDesc) (dfu : DfuCtx) : HandlerOut :=
  let dfu :=
    if dfu.bState = STATE_DFU_DNLOAD_SYNC then
      if dfu.data_len ≠ 0 then
        let dfu := { dfu with bState := STATE_DFU_DNBUSY }
        if dfu.block_num = 0 then
          if dfu.buf.getD 0 0 = ERASE then
            setPollingTimeout FLASH_ERASE_TIMEOUT dfu
          else
            setPollingTimeout FLASH_WRITE_TIMEOUT dfu
        else
          dfu
      else
        { dfu with bState := STATE_DFU_DNLOAD_IDLE }
    else if dfu.bState = STATE_DFU_MANIFEST_SYNC then
      if dfu.manifest_state = ManifestState.inProgress then
        { dfu with bState := STATE_DFU_MANIFEST, bwPollTimeout0 := 1 }
      else if dfu.manifest_state = ManifestState.complete ∧
              cfg.bmAttributes &&& 0x04 ≠ 0 then
        { dfu with bState := STATE_DFU_IDLE, bwPollTimeout0 := 0 }
      else
        dfu
    else
      dfu
  { ctx := dfu
    effects := []
    transc_in := Option.some (XferSrc.statusBlock, 6)
    transc_out := Option.none }

/-- `dfu_clrstatus`: from `ERROR`, clear to `{OK, IDLE}`; from any other
state, set `{STATUS_ERR_UNKNOWN, ERROR}`; always clear `iString`. -/
def dfu_clrstatus (dfu : DfuCtx) : HandlerOut :=
  let dfu :=
    if dfu.bState = STATE_DFU_ERROR then
      { dfu with bStatus := STATUS_OK, bState := STATE_DFU_IDLE }
    else
      { dfu with bStatus := STATUS_ERR_UNKNOWN, bState := STATE_DFU_ERROR }
  pureOut { dfu with iString := 0 }

/-- `dfu_getstate`: arm the 1-byte current state on EP0-IN; no mutation. -/
def dfu_getstate (dfu : DfuCtx) : HandlerOut :=
  { ctx := dfu
    effects := []
    transc_in := Option.some (XferSrc.stateByte, 1)
    transc_out := Option.none }

/-- `dfu_abort`: in one of the five "safe" states reset the context fields
to `{status=OK, state=IDLE, iString=0, block_num=0, data_len=0}`; other
states: no operation. -/
def dfu_abort (dfu : DfuCtx) : HandlerOut :=
  if dfu.bState = STATE_DFU_IDLE ∨ dfu.bState = STATE_DFU_DNLOAD_SYNC ∨
     dfu.bState = STATE_DFU_DNLOAD_IDLE ∨ dfu.bState = STATE_DFU_MANIFEST_SYNC ∨
     dfu.bState = STATE_DFU_UPLOAD_IDLE then
    pureOut { dfu with bStatus := STATUS_OK, bState := STATE_DFU_IDLE, iString := 0,
                       block_num := 0, data_len := 0 }
  else
    pureOut dfu

/-- `dfu_req_handler`: dispatch `bRequest < DFU_REQ_MAX` through the handler
table; larger opcodes fail the transfer with no mutation (`Option.none`). -/
def dfu_req_handler (cfg : DfuFuncDesc) (dfu : DfuCtx) (req : UsbReq) :
    Option HandlerOut :=
  if req.bRequest = DFU_DETACH then Option.some (dfu_detach cfg dfu)
  else if req.bRequest = DFU_DNLOAD then Option.some (dfu_dnload dfu req)
  else if req.bRequest = DFU_UPLOAD then Option.some (dfu_upload dfu req)
  else if req.bRequest = DFU_GETSTATUS then Option.some (dfu_getstatus cfg dfu)
  else if req.bRequest = DFU_CLRSTATUS then Option.some (dfu_clrstatus dfu)
  else if req.bRequest = DFU_GETSTATE then Option.some (dfu_getstate dfu)
  else if req.bRequest = DFU_ABORT then Option.some (dfu_abort dfu)
  else Option.none

/-- System state driven by the USB engine: the DFU context plus the armed
OUT data-stage length, if any. -/
structure Sys where
  ctx : DfuCtx
  outArmed : Option Nat
  deriving Repr, DecidableEq

/-- Events the USB transfer engine delivers to the class driver. -/
inductive Event where
  /-- a class request arrives (dispatched by `dfu_req_handler`). -/
  | request (req : UsbReq)
  /-- the armed OUT data stage completes with the host's bytes, filling the
  staging buffer prefix. -/
  | dataOut (data : List Nat)
  /-- an IN stage completes: `dfu_ctlx_in` runs `dfu_getstatus_complete`. -/
  | statusInComplete

/-- One step of the request/data-stage interface. -/
def sysStep (cfg : DfuFuncDesc) (s : Sys) (e : Event) : Sys :=
  match e with
  | Event.request req =>
      match dfu_req_handler cfg s.ctx req with
      | Option.some out =>
          { ctx := out.ctx
            outArmed :=
              match out.transc_out with
              | Option.some n => Option.some n
              | Option.none => s.outArmed }
      | Option.none => s
  | Event.dataOut data =>
      match s.outArmed with
      | Option.some n =>
          { ctx := { s.ctx with buf := (data.take n) ++ s.ctx.buf.drop (data.take n).length }
            outArmed := Option.none }
      | Option.none => s
  | Event.statusInComplete =>
      { s with ctx := (dfu_getstatus_complete cfg s.ctx).ctx }

/-- The initial system state: the context produced by `dfu_init`, nothing armed. -/
def initSys : Sys :=
  { ctx := dfu_init.ctx, outArmed := Option.none }

/-- Run a list of events from a system state. -/
def runEvents (cfg : DfuFuncDesc) (s : Sys) (es : List Event) : Sys :=
  es.foldl (sysStep cfg) s

/-- Spec section 3: "`block_num == 0` implies the buffer holds a command" —
the buffer's first byte is one of the three special-command opcodes. -/
def bufHoldsCommand (buf : List Nat) : Prop :=
  buf.getD 0 0 = GET_COMMANDS ∨ buf.getD 0 0 = SET_ADDRESS_POINTER ∨
  buf.getD 0 0 = ERASE

instance (buf : List Nat) : Decidable (bufHoldsCommand buf) := by
  unfold bufHoldsCommand
  infer_instance

end Dfu

namespace Dfu

/-- A context sitting in the ERROR state (reachable, e.g., via a CLRSTATUS
issued while in IDLE). -/
def errCtx : DfuCtx := { dfu_init.ctx with bState := STATE_DFU_ERROR }

/-- A context in `DNBUSY` with data block 3 staged for decoding. -/
def dnBusyCtx : DfuCtx :=
  { dfu_init.ctx with bState := STATE_DFU_DNBUSY, block_num := 3, data_len := 8 }

/-- An UPLOAD request for block 3, 16 bytes. -/
def upReq3 : UsbReq := { bRequest := DFU_UPLOAD, wValue := 3, wLength := 16 }

/-- C1: for every `block_num ≥ 2`, the download data-stage decode invokes the
adapter write and the upload path invokes the adapter read at exactly
`(block_num - 2) * TRANSFER_SIZE + base_addr` — the identical translation
formula on both paths (stated for addresses that fit 32 bits, where the
uint32 arithmetic does not wrap). -/
theorem C1_same_address_download_upload
    (cfg : DfuFuncDesc) (dn up : DfuCtx) (req : UsbReq)
    (hdn : dn.bState = STATE_DFU_DNBUSY) (hdnb : 2 ≤ dn.block_num)
    (hdnfit : (dn.block_num - 2) * TRANSFER_SIZE + dn.base_addr < 2 ^ 32)
    (hup : up.bState = STATE_DFU_IDLE ∨ up.bState = STATE_DFU_UPLOAD_IDLE)
    (hlen : 0 < req.wLength) (hupb : 2 ≤ req.wValue)
    (hupfit : (req.wValue - 2) * TRANSFER_SIZE + up.base_addr < 2 ^ 32) :
    (dfu_getstatus_complete cfg dn).effects =
      [Effect.memWrite ((dn.block_num - 2) * TRANSFER_SIZE + dn.base_addr)
        dn.data_len (dn.buf.take dn.data_len)] ∧
    (dfu_upload up req).effects =
      [Effect.memRead ((req.wValue - 2) * TRANSFER_SIZE + up.base_addr) req.wLength] ∧
    (dfu_upload up req).transc_in =
      Option.some (XferSrc.readRegion ((req.wValue - 2) * TRANSFER_SIZE + up.base_addr),
        req.wLength) := by
  have h0 : ¬ dn.block_num = 0 := by omega
  have h1 : 1 < dn.block_num := by omega
  have hu0 : ¬ req.wValue = 0 := by omega
  have hu1 : 1 < req.wValue := by omega
  have hl0 : ¬ req.wLength = 0 := by omega
  refine ⟨?_, ?_, ?_⟩
  · simp [dfu_getstatus_complete, hdn, h0, h1, blockAddr, Nat.mod_eq_of_lt hdnfit]; omega
  · simp [dfu_upload, hl0, hup, hu0, hu1, blockAddr, Nat.mod_eq_of_lt hupfit]; omega
  · simp [dfu_upload, hl0, hup, hu0, hu1, blockAddr, Nat.mod_eq_of_lt hupfit]; omega

/-- C1 witness: the theorem applied at a concrete `DNBUSY` context (block 3,
base 0x08008000) and a concrete UPLOAD request for block 3 from IDLE. -/
theorem C1_same_address_download_upload_witness :
    (dfu_getstatus_complete dfu_config_desc_func dnBusyCtx).effects =
      [Effect.memWrite ((dnBusyCtx.block_num - 2) * TRANSFER_SIZE + dnBusyCtx.base_addr)
        dnBusyCtx.data_len (dnBusyCtx.buf.take dnBusyCtx.data_len)] :=
  (C1_same_address_download_upload dfu_config_desc_func dnBusyCtx dfu_init.ctx upReq3
    (by decide) (by decide) (by decide) (Or.inl (by decide)) (by decide) (by decide)
    (by decide)).1

/-- C2: an UPLOAD with nonzero length and block number 1, received in IDLE or
UPLOAD_IDLE, is rejected: the handler records the stalled-packet status code
(the source stores `STATUS_ERR_STALLEDPKT` into the `bState` field), performs
no adapter read, and arms no response transfer. -/
theorem C2_upload_block1_rejected (dfu : DfuCtx) (req : UsbReq)
    (hst : dfu.bState = STATE_DFU_IDLE ∨ dfu.bState = STATE_DFU_UPLOAD_IDLE)
    (hlen : 0 < req.wLength) (hval : req.wValue = 1) :
    (dfu_upload dfu req).ctx.bState = STATUS_ERR_STALLEDPKT ∧
    (dfu_upload dfu req).effects = [] ∧
    (dfu_upload dfu req).transc_in = Option.none := by
  have hl0 : ¬ req.wLength = 0 := by omega
  refine ⟨?_, ?_, ?_⟩ <;>
    simp [dfu_upload, hl0, hst, hval, pureOut]

/-- C2 witness: the theorem applied to an UPLOAD of block 1, length 5, in
the freshly initialized IDLE context. -/
theorem C2_upload_block1_rejected_witness :
    (dfu_upload dfu_init.ctx { bRequest := DFU_UPLOAD, wValue := 1, wLength := 5 }).ctx.bState =
      STATUS_ERR_STALLEDPKT :=
  (C2_upload_block1_rejected dfu_init.ctx { bRequest := DFU_UPLOAD, wValue := 1, wLength := 5 }
    (Or.inl (by decide)) (by decide) (by decide)).1

/-- C3 counterexample: starting from ERROR, the second CLRSTATUS does not
leave the context in IDLE with status OK — it re-enters ERROR with the
"unknown error" status, so CLRSTATUS is not idempotent from ERROR. -/
theorem C3_counterexample :
    (dfu_clrstatus (dfu_clrstatus errCtx).ctx).ctx.bState = STATE_DFU_ERROR ∧
    (dfu_clrstatus (dfu_clrstatus errCtx).ctx).ctx.bStatus = STATUS_ERR_UNKNOWN ∧
    ¬ ((dfu_clrstatus (dfu_clrstatus errCtx).ctx).ctx.bState = STATE_DFU_IDLE ∧
       (dfu_clrstatus (dfu_clrstatus errCtx).ctx).ctx.bStatus = STATUS_OK) := by
  decide

/-- C3 amended: from ERROR, the first CLRSTATUS yields IDLE with status OK,
but repeated calls alternate: the second call (now outside ERROR) sets the
"unknown error" status and re-enters ERROR, and the third clears again. -/
theorem C3_clrstatus_alternation (dfu : DfuCtx) (h : dfu.bState = STATE_DFU_ERROR) :
    (dfu_clrstatus dfu).ctx.bState = STATE_DFU_IDLE ∧
    (dfu_clrstatus dfu).ctx.bStatus = STATUS_OK ∧
    (dfu_clrstatus (dfu_clrstatus dfu).ctx).ctx.bState = STATE_DFU_ERROR ∧
    (dfu_clrstatus (dfu_clrstatus dfu).ctx).ctx.bStatus = STATUS_ERR_UNKNOWN ∧
    (dfu_clrstatus (dfu_clrstatus (dfu_clrstatus dfu).ctx).ctx).ctx.bState = STATE_DFU_IDLE ∧
    (dfu_clrstatus (dfu_clrstatus (dfu_clrstatus dfu).ctx).ctx).ctx.bStatus = STATUS_OK := by
  simp [dfu_clrstatus, h, pureOut, STATE_DFU_ERROR, STATE_DFU_IDLE, STATUS_OK,
    STATUS_ERR_UNKNOWN]

/-- C3 witness: the amended theorem applied at a concrete ERROR context. -/
theorem C3_clrstatus_alternation_witness :
    (dfu_clrstatus errCtx).ctx.bState = STATE_DFU_IDLE :=
  (C3_clrstatus_alternation errCtx (by decide)).1

end Dfu

namespace Dfu

/-- A context in `DNLOAD_SYNC` with data block 2 of 4 bytes staged. -/
def dnSyncBlock2Ctx : DfuCtx :=
  { dfu_init.ctx with bState := STATE_DFU_DNLOAD_SYNC, block_num := 2, data_len := 4 }

/-- C4 counterexample: a GETSTATUS in `DNLOAD_SYNC` with a regular data block
staged (block 2, 4 bytes) moves to `DNBUSY` but arms no poll timeout at all:
the timeout byte keeps its previous value 0 instead of the write timeout
constant — the `SET_POLLING_TIMEOUT` calls are reachable only when
`block_num == 0`. -/
theorem C4_counterexample :
    (dfu_getstatus dfu_config_desc_func dnSyncBlock2Ctx).ctx.bState = STATE_DFU_DNBUSY ∧
    (dfu_getstatus dfu_config_desc_func dnSyncBlock2Ctx).ctx.bwPollTimeout0 = 0 ∧
    ¬ (dfu_getstatus dfu_config_desc_func dnSyncBlock2Ctx).ctx.bwPollTimeout0 =
        FLASH_WRITE_TIMEOUT := by
  decide

/-- C4 amended: GETSTATUS in `DNLOAD_SYNC` with `data_len ≠ 0` always moves
to `DNBUSY`, but a poll timeout is armed only when a block-0 command is
staged — the erase timeout when `buf[0]` is the ERASE opcode, else the write
timeout; for any nonzero block number (including regular data blocks ≥ 2)
the poll timeout is left unchanged. -/
theorem C4_getstatus_dnbusy_timeout (cfg : DfuFuncDesc) (dfu : DfuCtx)
    (hst : dfu.bState = STATE_DFU_DNLOAD_SYNC) (hd : dfu.data_len ≠ 0) :
    (dfu_getstatus cfg dfu).ctx.bState = STATE_DFU_DNBUSY ∧
    (dfu.block_num = 0 → dfu.buf.getD 0 0 = ERASE →
      (dfu_getstatus cfg dfu).ctx.bwPollTimeout0 = FLASH_ERASE_TIMEOUT) ∧
    (dfu.block_num = 0 → dfu.buf.getD 0 0 ≠ ERASE →
      (dfu_getstatus cfg dfu).ctx.bwPollTimeout0 = FLASH_WRITE_TIMEOUT) ∧
    (dfu.block_num ≠ 0 →
      (dfu_getstatus cfg dfu).ctx.bwPollTimeout0 = dfu.bwPollTimeout0) := by
  refine ⟨?_, ?_, ?_, ?_⟩
  · simp only [dfu_getstatus, hst, hd, setPollingTimeout, if_pos rfl, ne_eq,
      not_false_eq_true, if_true]
    split_ifs <;> rfl
  · intro hb he
    simp only [List.getD_eq_getElem?_getD] at he
    simp [dfu_getstatus, hst, hd, hb, he, setPollingTimeout, FLASH_ERASE_TIMEOUT]
  · intro hb he
    simp only [List.getD_eq_getElem?_getD] at he
    simp [dfu_getstatus, hst, hd, hb, he, setPollingTimeout, FLASH_WRITE_TIMEOUT]
  · intro hb
    simp [dfu_getstatus, hst, hd, hb, setPollingTimeout]

/-- A context in `DNLOAD_SYNC` with a 5-byte block-0 ERASE command staged
(target 0x08004000, little-endian in bytes 1..4). -/
def eraseStagedCtx : DfuCtx :=
  { dfu_init.ctx with bState := STATE_DFU_DNLOAD_SYNC, block_num := 0, data_len := 5,
                      buf := [ERASE, 0x00, 0x40, 0x00, 0x08] ++
                             List.replicate (TRANSFER_SIZE - 5) 0 }

/-- C4 witness: the amended theorem applied at a staged ERASE command —
the erase timeout constant is armed. -/
theorem C4_getstatus_dnbusy_timeout_witness :
    (dfu_getstatus dfu_config_desc_func eraseStagedCtx).ctx.bwPollTimeout0 =
      FLASH_ERASE_TIMEOUT :=
  (C4_getstatus_dnbusy_timeout dfu_config_desc_func eraseStagedCtx
    (by decide) (by decide)).2.1 (by decide) (by decide)

/-- C5: an ABORT or DETACH received in any of IDLE, DNLOAD_SYNC,
DNLOAD_IDLE, MANIFEST_SYNC or UPLOAD_IDLE leaves the context with
status OK, state IDLE, string index 0, block number 0 and no staged data. -/
theorem C5_abort_detach_reset (cfg : DfuFuncDesc) (dfu : DfuCtx)
    (h : dfu.bState = STATE_DFU_IDLE ∨ dfu.bState = STATE_DFU_DNLOAD_SYNC ∨
         dfu.bState = STATE_DFU_DNLOAD_IDLE ∨ dfu.bState = STATE_DFU_MANIFEST_SYNC ∨
         dfu.bState = STATE_DFU_UPLOAD_IDLE) :
    ((dfu_abort dfu).ctx.bStatus = STATUS_OK ∧
     (dfu_abort dfu).ctx.bState = STATE_DFU_IDLE ∧
     (dfu_abort dfu).ctx.iString = 0 ∧
     (dfu_abort dfu).ctx.block_num = 0 ∧
     (dfu_abort dfu).ctx.data_len = 0) ∧
    ((dfu_detach cfg dfu).ctx.bStatus = STATUS_OK ∧
     (dfu_detach cfg dfu).ctx.bState = STATE_DFU_IDLE ∧
     (dfu_detach cfg dfu).ctx.iString = 0 ∧
     (dfu_detach cfg dfu).ctx.block_num = 0 ∧
     (dfu_detach cfg dfu).ctx.data_len = 0) := by
  constructor
  · simp [dfu_abort, h, pureOut]
  · simp [dfu_detach, h]

/-- C5 witness: the theorem applied at a context in `MANIFEST_SYNC`. -/
theorem C5_abort_detach_reset_witness :
    (dfu_abort { dfu_init.ctx with bState := STATE_DFU_MANIFEST_SYNC }).ctx.bStatus =
      STATUS_OK :=
  (C5_abort_detach_reset dfu_config_desc_func
    { dfu_init.ctx with bState := STATE_DFU_MANIFEST_SYNC }
    (Or.inr (Or.inr (Or.inr (Or.inl (by decide)))))).1.1

/-- C6: a data-stage completion in `MANIFEST` has exactly two outcomes,
selected by the manifestation-tolerant bit (0x04) of the functional
descriptor: tolerant devices move to `MANIFEST_SYNC` with manifestation
complete and no external effect; intolerant devices move to
`MANIFEST_WAIT_RESET`, deinitialize the memory adapter and issue the
system reset. -/
theorem C6_manifest_two_outcomes (cfg : DfuFuncDesc) (dfu : DfuCtx)
    (h : dfu.bState = STATE_DFU_MANIFEST) :
    (cfg.bmAttributes &&& 0x04 ≠ 0 →
      (dfu_getstatus_complete cfg dfu).ctx.bState = STATE_DFU_MANIFEST_SYNC ∧
      (dfu_getstatus_complete cfg dfu).ctx.manifest_state = ManifestState.complete ∧
      (dfu_getstatus_complete cfg dfu).effects = []) ∧
    (cfg.bmAttributes &&& 0x04 = 0 →
      (dfu_getstatus_complete cfg dfu).ctx.bState = STATE_DFU_MANIFEST_WAIT_RESET ∧
      (dfu_getstatus_complete cfg dfu).ctx.manifest_state = ManifestState.complete ∧
      (dfu_getstatus_complete cfg dfu).effects = [Effect.memDeinit, Effect.systemReset]) := by
  constructor
  · intro ht
    simp [dfu_getstatus_complete, h, dfu_mode_leave, ht, pureOut,
      STATE_DFU_MANIFEST, STATE_DFU_DNBUSY]
  · intro ht
    simp [dfu_getstatus_complete, h, dfu_mode_leave, ht, pureOut,
      STATE_DFU_MANIFEST, STATE_DFU_DNBUSY]

/-- A context whose data stage completes while in `MANIFEST`. -/
def manifestCtx : DfuCtx := { dfu_init.ctx with bState := STATE_DFU_MANIFEST }

/-- C6 witness: with this file's concrete functional descriptor (tolerant
bit clear), leaving DFU mode deinitializes the adapter and resets. -/
theorem C6_manifest_two_outcomes_witness :
    (dfu_getstatus_complete dfu_config_desc_func manifestCtx).effects =
      [Effect.memDeinit, Effect.systemReset] :=
  ((C6_manifest_two_outcomes dfu_config_desc_func manifestCtx (by decide)).2
    (by decide)).2.2

end Dfu

namespace Dfu

/-- A host session that downloads regular data block 2 (4 raw firmware bytes
0xFF), polls GETSTATUS (entering `DNBUSY`), and completes the status stage so
the decoder flashes the block. -/
def rawBlockTrace : List Event :=
  [Event.request { bRequest := DFU_DNLOAD, wValue := 2, wLength := 4 },
   Event.dataOut [0xFF, 0xFF, 0xFF, 0xFF],
   Event.request { bRequest := DFU_GETSTATUS, wValue := 0, wLength := 6 },
   Event.statusInComplete]

/-- C7 counterexample: at the end of `rawBlockTrace` — a state reached purely
through the request and data-stage handlers — the decoder has reset
`block_num` to 0 while the staging buffer still holds the raw firmware bytes
of block 2 (first byte 0xFF, not one of the three command opcodes). -/
theorem C7_counterexample :
    (runEvents dfu_config_desc_func initSys rawBlockTrace).ctx.block_num = 0 ∧
    (runEvents dfu_config_desc_func initSys rawBlockTrace).ctx.buf.getD 0 0 = 0xFF ∧
    ¬ bufHoldsCommand (runEvents dfu_config_desc_func initSys rawBlockTrace).ctx.buf := by
  decide

/-- C7 amended: `block_num == 0` means the staged buffer is only ever
interpreted as a command, never consumed as raw firmware data — in any
context with `block_num = 0` the data-stage decoder performs no adapter
write (the raw-data path requires `block_num > 1`), even though the buffer
bytes themselves may be left over from an earlier data block. -/
theorem C7_block0_never_written (cfg : DfuFuncDesc) (dfu : DfuCtx)
    (h : dfu.block_num = 0) (addr len : Nat) (data : List Nat) :
    Effect.memWrite addr len data ∉ (dfu_getstatus_complete cfg dfu).effects := by
  simp only [dfu_getstatus_complete, h, dfu_mode_leave, pureOut]
  split_ifs <;> simp

/-- C7 witness: the amended theorem applied at the freshly initialized
context (block number 0). -/
theorem C7_block0_never_written_witness :
    Effect.memWrite 0 0 [] ∉ (dfu_getstatus_complete dfu_config_desc_func dfu_init.ctx).effects :=
  C7_block0_never_written dfu_config_desc_func dfu_init.ctx (by decide) 0 0 []

/-- C8 counterexample: directly after `dfu_init` the flash cursor is not
zero — the code overwrites the zeroed context with
`base_addr = APP_LOADED_ADDR`, the application's flash base address. -/
theorem C8_counterexample :
    dfu_init.ctx.base_addr = APP_LOADED_ADDR ∧ ¬ dfu_init.ctx.base_addr = 0 := by
  decide

/-- C8 amended: `dfu_init` zero-fills the context and then installs
`base_addr = APP_LOADED_ADDR`, `manifest_state = COMPLETE`, state IDLE and
status OK; every remaining field (timeout bytes, string index, block number,
staged length, buffer) holds its zero value. -/
theorem C8_init_state :
    dfu_init.ctx.bState = STATE_DFU_IDLE ∧
    dfu_init.ctx.bStatus = STATUS_OK ∧
    dfu_init.ctx.base_addr = APP_LOADED_ADDR ∧
    dfu_init.ctx.manifest_state = ManifestState.complete ∧
    dfu_init.ctx.bwPollTimeout0 = 0 ∧
    dfu_init.ctx.bwPollTimeout1 = 0 ∧
    dfu_init.ctx.bwPollTimeout2 = 0 ∧
    dfu_init.ctx.iString = 0 ∧
    dfu_init.ctx.block_num = 0 ∧
    dfu_init.ctx.data_len = 0 ∧
    dfu_init.ctx.buf = List.replicate TRANSFER_SIZE 0 :=
  ⟨rfl, rfl, rfl, rfl, rfl, rfl, rfl, rfl, rfl, rfl, rfl⟩

/-- C9: every DETACH performs the bus-level side effect — a
disconnect/reconnect cycle when the will-detach bit of `wDetachTimeOut` is
set, otherwise a fixed 4 ms delay — regardless of the current state; and
outside the five "safe" states the context is left entirely unchanged while
the side effect still occurs. -/
theorem C9_detach_side_effect_frame (cfg : DfuFuncDesc) (dfu : DfuCtx) :
    ((dfu_detach cfg dfu).effects =
      if cfg.wDetachTimeOut &&& DFU_DETACH_MASK ≠ 0 then
        [Effect.usbdDisconnect, Effect.usbdConnect]
      else
        [Effect.delayMs 4]) ∧
    (¬ (dfu.bState = STATE_DFU_IDLE ∨ dfu.bState = STATE_DFU_DNLOAD_SYNC ∨
        dfu.bState = STATE_DFU_DNLOAD_IDLE ∨ dfu.bState = STATE_DFU_MANIFEST_SYNC ∨
        dfu.bState = STATE_DFU_UPLOAD_IDLE) →
      (dfu_detach cfg dfu).ctx = dfu) := by
  constructor
  · simp [dfu_detach]
  · intro hn
    simp [dfu_detach, hn]

/-- C9 witness: the theorem applied at a context in the ERROR state with
this file's concrete descriptor (will-detach set): the context is unchanged
while the disconnect/reconnect cycle still happens. -/
theorem C9_detach_side_effect_frame_witness :
    (dfu_detach dfu_config_desc_func errCtx).ctx = errCtx :=
  (C9_detach_side_effect_frame dfu_config_desc_func errCtx).2 (by decide)

/-- A context polling GETSTATUS in `MANIFEST_SYNC` with manifestation
complete. -/
def manifestSyncCtx : DfuCtx := { dfu_init.ctx with bState := STATE_DFU_MANIFEST_SYNC }

/-- C10: a GETSTATUS in `MANIFEST_SYNC` with manifestation complete while
the manifestation-tolerant bit is clear changes nothing — the whole context
(state and poll timeout included) is untouched and only the 6-byte status
packet is armed on EP0-IN. -/
theorem C10_getstatus_manifest_sync_intolerant (cfg : DfuFuncDesc) (dfu : DfuCtx)
    (hst : dfu.bState = STATE_DFU_MANIFEST_SYNC)
    (hm : dfu.manifest_state = ManifestState.complete)
    (hbit : cfg.bmAttributes &&& 0x04 = 0) :
    (dfu_getstatus cfg dfu).ctx = dfu ∧
    (dfu_getstatus cfg dfu).transc_in = Option.some (XferSrc.statusBlock, 6) ∧
    (dfu_getstatus cfg dfu).effects = [] := by
  refine ⟨?_, ?_, ?_⟩ <;>
    simp [dfu_getstatus, hst, hm, hbit, STATE_DFU_MANIFEST_SYNC, STATE_DFU_DNLOAD_SYNC]

/-- C10 witness: the theorem applied at a concrete `MANIFEST_SYNC`,
manifestation-complete context with this file's concrete descriptor
(tolerant bit clear). -/
theorem C10_getstatus_manifest_sync_intolerant_witness :
    (dfu_getstatus dfu_config_desc_func manifestSyncCtx).ctx = manifestSyncCtx :=
  (C10_getstatus_manifest_sync_intolerant dfu_config_desc_func manifestSyncCtx
    (by decide) (by decide) (by decide)).1

end Dfu
